import Mathlib

/-!
Verification development for the print-server agent: a shallow embedding of
the printer fleet reconciler (`src/sync/controllers/printers.js`, two source
variants), the CUPS helper (`src/printers/helpers/cups.js`), the file
ingestion monitor (`src/monitor/controllers/monitor.js` and its sibling
variant), and the print dispatcher (`printFile`).

External effects (CUPS shell commands, database queries, network probes,
filesystem operations) are modelled as oracle parameters and as explicit
event traces, so that each controller becomes a pure, executable function
of its inputs and oracles.
-/

/-- JavaScript truthiness of an optional string: `undefined`/`null` and the
empty string are falsy, every other string is truthy. -/
def truthy : Option String → Bool
  | none => false
  | some s => !(s == "")

/-- Value extraction after a truthiness test (`undefined` prints as ""). -/
def getStr : Option String → String
  | none => ""
  | some s => s

/-- ASCII lower-casing of a character, as `String.prototype.toLowerCase`
behaves on the ASCII protocol and extension strings this program handles. -/
def lowerChar (c : Char) : Char :=
  if c.val ≥ 65 && c.val ≤ 90 then Char.ofNat (c.toNat + 32) else c

/-- ASCII lower-casing of a string. -/
def lowerStr (s : String) : String :=
  ⟨s.data.map lowerChar⟩

/-- JavaScript `a || b` on an optional string: the default is used when the
value is `undefined` or the empty string. -/
def jsOrStr (a : Option String) (b : String) : String :=
  match a with
  | none => b
  | some s => if s = "" then b else s

/-- JavaScript `n || d` on an optional number: `undefined` and `0` are falsy. -/
def jsOrNat (a : Option Nat) (d : Nat) : Nat :=
  match a with
  | none => d
  | some n => if n = 0 then d else n

/-- `getDefaultPort` from `sync/controllers/printers.js`: the default port for
a protocol, via `switch (protocol?.toLowerCase())`; `socket` and every
unrecognised (or missing) protocol fall through to 9100. -/
def getDefaultPort (protocol : Option String) : Nat :=
  match protocol with
  | none => 9100
  | some s =>
    let p := lowerStr s
    if p = "ipp" ∨ p = "ipps" then 631
    else if p = "lpd" then 515
    else if p = "http" then 80
    else if p = "https" then 443
    else 9100

namespace Cups

/-- The fixed ordered list of common IPP endpoint paths probed by
`discoverIppPath` in `printers/helpers/cups.js`. -/
def commonPaths : List String :=
  ["/ipp/print", "/ipp", "/printer", "/printers/printer", "", "/IPP/Print"]

/-- Helper for `[...new Set(list)]`: `seen` accumulates the elements already
kept, so each element survives only at its first occurrence, in order. -/
def dedupFirstAux (seen : List String) : List String → List String
  | [] => []
  | x :: r =>
    if seen.contains x then dedupFirstAux seen r
    else x :: dedupFirstAux (x :: seen) r

/-- `[...new Set(list)]`: removes duplicates keeping the first occurrence of
each element, in order. -/
def dedupFirst (l : List String) : List String :=
  dedupFirstAux [] l

/-- The candidate path list of `discoverIppPath`: the suggested path (when it
is a truthy string) is unshifted in front of `commonPaths`, then duplicates
are removed. -/
def uniquePaths (suggested : Option String) : List String :=
  match suggested with
  | some s => dedupFirst (s :: commonPaths)
  | none => dedupFirst commonPaths

/-- The probe loop of `discoverIppPath`: each candidate path (empty path is
replaced by "/") is tested against the HTTP(S) endpoint oracle `ok` (true
means the endpoint answered with status < 500 within the timeout); the first
responding path yields the URI, and when none responds the default URI
`protocol://ip:port/ipp/print` is returned. -/
def discoverLoop (protocol ip : String) (port : Nat) (ok : String → Bool) :
    List String → String
  | [] => protocol ++ "://" ++ ip ++ ":" ++ toString port ++ "/ipp/print"
  | p :: rest =>
    let fullPath := if p = "" then "/" else p
    if ok fullPath then protocol ++ "://" ++ ip ++ ":" ++ toString port ++ fullPath
    else discoverLoop protocol ip port ok rest

/-- `discoverIppPath(protocol, ip, port, suggestedPath)` from
`printers/helpers/cups.js`, with the network probe as the oracle `ok`. -/
def discoverIppPath (protocol ip : String) (port : Nat) (suggested : Option String)
    (ok : String → Bool) : String :=
  discoverLoop protocol ip port ok (uniquePaths suggested)

/-- `testIppEndpoint(protocol, ip, port)` from `printers/helpers/cups.js`:
the body is exactly `return discoverIppPath(protocol, ip, port)`, so the
function returns a URI string (not the documented result object). -/
def testIppEndpoint (protocol ip : String) (port : Nat) (ok : String → Bool) : String :=
  discoverIppPath protocol ip port none ok

/-- The JavaScript property access `r.valid` performed by the sync controller
on the value returned by `testIppEndpoint`: that value is a string, a string
has no `valid` property, so the access yields `undefined`, which is falsy. -/
def stringValidField (_r : String) : Bool :=
  false

/-- The `r.path` property access on the same string value: `undefined`. -/
def stringPathField (_r : String) : Option String :=
  none

/-- `buildPrinterUri(protocol, ip, port, path)` from
`printers/helpers/cups.js`; throws when `ip` is falsy, modelled by `Except`. -/
def buildPrinterUri (protocol : String) (ip : Option String) (port : Nat)
    (path0 : Option String) : Except String String :=
  if !(truthy ip) then .error "IP address required to build the URI"
  else
    let ipS := getStr ip
    let p := lowerStr protocol
    let withPath (proto : String) (defPort : Nat) (defPath : String) : String :=
      match path0 with
      | some pa =>
        if pa ≠ "" then
          proto ++ "://" ++ ipS ++ ":" ++ toString (jsOrNat (some port) defPort) ++
            (if pa.startsWith "/" then pa else "/" ++ pa)
        else proto ++ "://" ++ ipS ++ ":" ++ toString (jsOrNat (some port) defPort) ++ defPath
      | none => proto ++ "://" ++ ipS ++ ":" ++ toString (jsOrNat (some port) defPort) ++ defPath
    if p = "ipp" then .ok (withPath "ipp" 631 "/ipp/print")
    else if p = "ipps" then .ok (withPath "ipps" 631 "/ipp/print")
    else if p = "lpd" then .ok ("lpd://" ++ ipS ++ ":" ++ toString (jsOrNat (some port) 515) ++ "/queue")
    else if p = "smb" then .ok ("smb://" ++ ipS ++ "/printer")
    else if p = "dnssd" then .ok ("dnssd://" ++ ipS ++ "/")
    else if p = "http" then .ok (withPath "http" 80 "/ipp/print")
    else if p = "https" then .ok (withPath "https" 443 "/ipp/print")
    else .ok ("socket://" ++ ipS ++ ":" ++ toString (jsOrNat (some port) 9100))

/-- The URI-construction step at the top of `setupPrinter`: a supplied truthy
`uri` wins; otherwise for IPP/IPPS with a truthy ip the URI comes from
`discoverIppPath` (which never fails); otherwise from `buildPrinterUri`
(which throws exactly when the ip is missing). -/
def setupPrinterUri (protocol : String) (ip uri path0 : Option String) (port : Nat)
    (ok : String → Bool) : Except String String :=
  if truthy uri then .ok (getStr uri)
  else if (lowerStr protocol = "ipp" ∨ lowerStr protocol = "ipps") ∧ truthy ip then
    .ok (discoverIppPath protocol (getStr ip) port path0 ok)
  else buildPrinterUri protocol ip port path0

end Cups

/-- Observable external calls of the reconciler: CUPS adapter commands and
database mutations (reads are supplied by oracles and not traced). -/
inductive PrEv
  | cupsSetup (name : String)
  | cupsRemove (name : String)
  | dbInsert (id : String)
  | dbUpdate (id : String)
  | dbDelete (id : String)
deriving Repr, DecidableEq

/-- Whether an event is a CUPS adapter call (configure or remove). -/
def PrEv.isCups : PrEv → Bool
  | .cupsSetup _ => true
  | .cupsRemove _ => true
  | _ => false

/-- Result of a store write through the Printer model: the model catches its
own exceptions and returns a `\x7b message \x7d` sentinel (`errObj`); the
`thrown` case keeps the caller's catch branch representable even though the
store client never actually throws. -/
inductive DbRes
  | ok
  | errObj (msg : String)
  | thrown (msg : String)
deriving Repr, DecidableEq

namespace V1

/-- An incoming printer descriptor of the direct-sync variant of
`sync/controllers/printers.js` (fields may be absent, as in the request
body). `connectivity` is `connectivity.port.open` when the client supplied
connectivity info with a `port` member. -/
structure Descriptor where
  id : Option String := none
  name : Option String := none
  status : Option String := none
  ip_address : Option String := none
  mac_address : Option String := none
  driver : Option String := none
  protocol : Option String := none
  port : Option Nat := none
  uri : Option String := none
  path : Option String := none
  description : Option String := none
  location : Option String := none
  connectivity : Option Bool := none
deriving Repr, DecidableEq

/-- An itemised warning or error entry of the sync summary. -/
structure Note where
  id : String
  name : String
  note : String
deriving Repr, DecidableEq

/-- The `result.details` accumulator of the direct-sync variant. -/
structure SyncDetails where
  total : Nat := 0
  created : Nat := 0
  updated : Nat := 0
  deleted : Nat := 0
  skipped : Nat := 0
  warnings : List Note := []
  errors : List Note := []
deriving Repr, DecidableEq

/-- Oracles for one descriptor's external calls: the `id` field of the row
`Printer.getById` returned (if any), the IPP endpoint probe, the TCP port
probe (with its possible rejection, which the code catches), the
`setupPrinter` outcome, and the store write result. -/
structure ItemOracle where
  existingId : Option String := none
  ippOk : String → Bool := fun _ => false
  portOpen : Bool := false
  probeThrew : Bool := false
  cupsSetupOk : Bool := true
  cupsSetupThrew : Bool := false
  dbRes : DbRes := .ok

/-- The destructuring default `port = getDefaultPort(protocol)` — the
`protocol` binding is itself already defaulted to socket. -/
def destructuredPort (d : Descriptor) : Nat :=
  match d.port with
  | some p => p
  | none => getDefaultPort (some (d.protocol.getD "socket"))

/-- The `isConnected` computation of the direct-sync loop: client-supplied
connectivity wins; else for IPP/IPPS the endpoint probe result's `valid`
property is consulted (always `undefined` on the string `testIppEndpoint`
returns); else the TCP port probe (false when it threw and was caught). -/
def computeConnected (d : Descriptor) (o : ItemOracle) : Bool :=
  match d.connectivity with
  | some b => b
  | none =>
    if truthy d.ip_address then
      let protocol := d.protocol.getD "socket"
      if lowerStr protocol = "ipp" ∨ lowerStr protocol = "ipps" then
        let ippResult :=
          Cups.testIppEndpoint protocol (getStr d.ip_address) (destructuredPort d) o.ippOk
        decide (ippResult ≠ "") && Cups.stringValidField ippResult
      else if o.probeThrew then false else o.portOpen
    else false

/-- One iteration of the per-printer loop of the direct-sync `syncPrinters`
(validation, connectivity check, CUPS configuration, store write, and the
catch-branch compensation), returning the updated summary and the trace of
adapter/store calls. -/
def processItem (d : Descriptor) (o : ItemOracle) (st : SyncDetails) :
    SyncDetails × List PrEv :=
  if !(truthy d.id) || !(truthy d.name) then
    ({ st with
        errors := st.errors ++
          [⟨jsOrStr d.id "unknown", jsOrStr d.name "Impressora sem nome",
            "Dados incompletos (ID ou nome ausentes)"⟩],
        skipped := st.skipped + 1 }, [])
  else
    let id := getStr d.id
    let name := getStr d.name
    let exists_ := truthy o.existingId
    let isConnected : Bool := computeConnected d o
    let cupsStage : SyncDetails × List PrEv × Bool :=
      if truthy d.ip_address && isConnected then
        if o.cupsSetupThrew then
          ({ st with warnings := st.warnings ++ [⟨id, name, "Erro ao configurar no CUPS"⟩] },
           [PrEv.cupsSetup name], false)
        else if o.cupsSetupOk then (st, [PrEv.cupsSetup name], true)
        else
          ({ st with warnings := st.warnings ++ [⟨id, name, "Falha ao configurar no CUPS"⟩] },
           [PrEv.cupsSetup name], false)
      else if truthy d.ip_address then
        ({ st with warnings := st.warnings ++
            [⟨id, name, "Impressora nao esta conectada na porta"⟩] }, [], false)
      else
        ({ st with warnings := st.warnings ++
            [⟨id, name, "Impressora sem endereco IP definido"⟩] }, [], false)
    let s1 := cupsStage.1
    let t1 := cupsStage.2.1
    let printerWasSetUp := cupsStage.2.2
    let dbStage : SyncDetails × List PrEv :=
      if exists_ then
        match o.dbRes with
        | .ok => ({ s1 with updated := s1.updated + 1 }, [PrEv.dbUpdate id])
        | .errObj m => ({ s1 with errors := s1.errors ++ [⟨id, name, m⟩] }, [PrEv.dbUpdate id])
        | .thrown m =>
          ({ s1 with errors := s1.errors ++ [⟨id, name, m⟩], skipped := s1.skipped + 1 },
           [PrEv.dbUpdate id] ++ (if printerWasSetUp then [PrEv.cupsRemove name] else []))
      else
        match o.dbRes with
        | .ok => ({ s1 with created := s1.created + 1 }, [PrEv.dbInsert id])
        | .errObj m => ({ s1 with errors := s1.errors ++ [⟨id, name, m⟩] }, [PrEv.dbInsert id])
        | .thrown m =>
          ({ s1 with errors := s1.errors ++ [⟨id, name, m⟩], skipped := s1.skipped + 1 },
           [PrEv.dbInsert id] ++ (if printerWasSetUp then [PrEv.cupsRemove name] else []))
    (dbStage.1, t1 ++ dbStage.2)

/-- A row of the printers table as seen by the trailing deletion phase,
together with the oracle for its `Printer.delete` call. -/
structure DbPrinter where
  id : String
  name : String
  deletedAt : Option String := none
  delRes : DbRes := .ok
deriving Repr

/-- One iteration of the deletion phase: a non-deleted row whose id is absent
from the client batch is removed from CUPS and soft-deleted in the store. -/
def deleteItem (clientIds : List String) (p : DbPrinter) (st : SyncDetails) :
    SyncDetails × List PrEv :=
  if clientIds.contains p.id || truthy p.deletedAt then (st, [])
  else
    match p.delRes with
    | .ok =>
      ({ st with deleted := st.deleted + 1 }, [PrEv.cupsRemove p.name, PrEv.dbDelete p.id])
    | .errObj m =>
      ({ st with errors := st.errors ++ [⟨p.id, p.name, m⟩] },
       [PrEv.cupsRemove p.name, PrEv.dbDelete p.id])
    | .thrown m =>
      ({ st with errors := st.errors ++ [⟨p.id, p.name, m⟩] },
       [PrEv.cupsRemove p.name, PrEv.dbDelete p.id])

/-- The per-printer loop, folded over the batch. -/
def runItems : List (Descriptor × ItemOracle) → SyncDetails → SyncDetails × List PrEv
  | [], st => (st, [])
  | (d, o) :: rest, st =>
    let r1 := processItem d o st
    let r2 := runItems rest r1.1
    (r2.1, r1.2 ++ r2.2)

/-- The deletion phase, folded over the database rows. -/
def runDeletes (clientIds : List String) :
    List DbPrinter → SyncDetails → SyncDetails × List PrEv
  | [], st => (st, [])
  | p :: rest, st =>
    let r1 := deleteItem clientIds p st
    let r2 := runDeletes clientIds rest r1.1
    (r2.1, r1.2 ++ r2.2)

/-- The whole direct-sync `syncPrinters` controller over a batch and the
current database rows: per-printer processing followed by the deletion
phase. -/
def syncPrinters (batch : List (Descriptor × ItemOracle)) (dbPrinters : List DbPrinter) :
    SyncDetails × List PrEv :=
  let clientIds := batch.filterMap (fun x => x.1.id)
  let r1 := runItems batch { total := batch.length }
  let r2 := runDeletes clientIds dbPrinters r1.1
  (r2.1, r1.2 ++ r2.2)

end V1

namespace V2

/-- The fully-constructed `printerData` of the MAC-discovery sync variant:
after the loop fills in the discovered ip, the defaulted port/protocol and
the synthesised URI, all fields are defined. -/
structure PrinterData where
  id : String
  name : String
  status : String
  mac_address : String
  driver : String
  description : String
  location : String
  ip_address : String
  port : Nat
  protocol : String
  uri : String
deriving Repr, DecidableEq

/-- A row of the printers table as read by the MAC-discovery variant;
fields other than `id` may be null in the database. -/
structure Current where
  id : String
  name : Option String := none
  status : Option String := none
  mac_address : Option String := none
  driver : Option String := none
  description : Option String := none
  location : Option String := none
  ip_address : Option String := none
  port : Option Nat := none
  protocol : Option String := none
  uri : Option String := none
deriving Repr, DecidableEq

/-- `_detectChanges`: the watched field list, in source order; a field counts
as changed when the (always defined) new value differs from the stored one
(`newData[field] !== currentData[field]`). -/
def detectChanges (nd : PrinterData) (cur : Current) : List String :=
  (if some nd.name ≠ cur.name then ["name"] else []) ++
  (if some nd.status ≠ cur.status then ["status"] else []) ++
  (if some nd.protocol ≠ cur.protocol then ["protocol"] else []) ++
  (if some nd.mac_address ≠ cur.mac_address then ["mac_address"] else []) ++
  (if some nd.driver ≠ cur.driver then ["driver"] else []) ++
  (if some nd.uri ≠ cur.uri then ["uri"] else []) ++
  (if some nd.description ≠ cur.description then ["description"] else []) ++
  (if some nd.location ≠ cur.location then ["location"] else []) ++
  (if some nd.port ≠ cur.port then ["port"] else [])

/-- The per-descriptor outcome pushed into `syncResults`. -/
inductive ItemOut
  | createdOut (id name : String)
  | updatedOut (id name : String)
  | unchangedOut (id name : String)
  | warningOut (id name w : String)
  | errorOut (id name msg : String)
deriving Repr, DecidableEq

/-- `_createPrinter`: configure CUPS first; on CUPS failure throw (nothing
persisted); on store-insert failure remove the just-configured queue, then
throw; on success classify as created, or as a warning when the
connectivity test was negative. -/
def createPrinter (nd : PrinterData) (connOverall : Bool) (cupsOk : Bool)
    (dbRes : DbRes) : Except (String × List PrEv) (ItemOut × List PrEv) :=
  if !cupsOk then
    .error ("Falha ao configurar CUPS", [PrEv.cupsSetup nd.name])
  else
    match dbRes with
    | .errObj m =>
      .error ("Falha ao salvar no banco: " ++ m,
        [PrEv.cupsSetup nd.name, PrEv.dbInsert nd.id, PrEv.cupsRemove nd.name])
    | .thrown m =>
      .error ("Falha ao salvar no banco: " ++ m,
        [PrEv.cupsSetup nd.name, PrEv.dbInsert nd.id])
    | .ok =>
      if !connOverall then
        .ok (ItemOut.warningOut nd.id nd.name "Impressora criada mas sem conexao",
          [PrEv.cupsSetup nd.name, PrEv.dbInsert nd.id])
      else
        .ok (ItemOut.createdOut nd.id nd.name,
          [PrEv.cupsSetup nd.name, PrEv.dbInsert nd.id])

/-- `_updatePrinterIfNeeded`: no diff means no adapter call and an
unchanged/warning classification; with a diff the queue is reconfigured
(removing the old queue first when the name changed, and restoring it when
the reconfiguration fails), then the store row is updated. -/
def updatePrinterIfNeeded (nd : PrinterData) (cur : Current) (connOverall : Bool)
    (cupsOk : Bool) (dbRes : DbRes) : Except (String × List PrEv) (ItemOut × List PrEv) :=
  let changes := detectChanges nd cur ++
    (if some nd.ip_address ≠ cur.ip_address then ["ip_address"] else [])
  if changes = [] then
    if !connOverall then
      .ok (ItemOut.warningOut nd.id nd.name "Impressora sem conexao", [])
    else
      .ok (ItemOut.unchangedOut nd.id nd.name, [])
  else
    let nameChanged := changes.contains "name"
    let tRemove := if nameChanged then [PrEv.cupsRemove (getStr cur.name)] else []
    if !cupsOk then
      let tRestore := if nameChanged then [PrEv.cupsSetup (getStr cur.name)] else []
      .error ("Falha ao atualizar CUPS",
        tRemove ++ [PrEv.cupsSetup nd.name] ++ tRestore)
    else
      match dbRes with
      | .errObj m =>
        .error ("Falha ao atualizar banco: " ++ m,
          tRemove ++ [PrEv.cupsSetup nd.name, PrEv.dbUpdate nd.id])
      | .thrown m =>
        .error ("Falha ao atualizar banco: " ++ m,
          tRemove ++ [PrEv.cupsSetup nd.name, PrEv.dbUpdate nd.id])
      | .ok =>
        if !connOverall then
          .ok (ItemOut.warningOut nd.id nd.name "Impressora atualizada mas sem conexao",
            tRemove ++ [PrEv.cupsSetup nd.name, PrEv.dbUpdate nd.id])
        else
          .ok (ItemOut.updatedOut nd.id nd.name,
            tRemove ++ [PrEv.cupsSetup nd.name, PrEv.dbUpdate nd.id])

end V2

namespace V2

/-- An incoming printer descriptor of the MAC-discovery sync variant. -/
structure Descriptor where
  id : Option String := none
  name : Option String := none
  mac_address : Option String := none
  status : Option String := none
  driver : Option String := none
  description : Option String := none
  location : Option String := none
  uri : Option String := none
deriving Repr, DecidableEq

/-- The result of `networkUtils.findPrinterByMac`. -/
structure NetInfo where
  found : Bool
  ip : Option String := none
  port : Option Nat := none
  protocol : Option String := none
deriving Repr, DecidableEq

/-- Oracles for one descriptor: the MAC→IP discovery result, the
`_testPrinterConnectivity` probes (ping, TCP port, and whether a probe threw
— the catch leaves every test false), the `setupPrinter` outcome and the
store write result. -/
structure ItemOracle where
  net : NetInfo := { found := false }
  pingOk : Bool := false
  portOpen : Bool := false
  connTestThrew : Bool := false
  cupsOk : Bool := true
  dbRes : DbRes := .ok

/-- `_testPrinterConnectivity`'s `overall` verdict: ping or port succeeded,
unless a probe threw before `overall` was computed. -/
def connOverall (o : ItemOracle) : Bool :=
  if o.connTestThrew then false else (o.pingOk || o.portOpen)

/-- The `printerData` object assembled by the loop after MAC discovery. -/
def mkPrinterData (d : Descriptor) (net : NetInfo) : PrinterData :=
  { id := getStr d.id
    name := getStr d.name
    status := d.status.getD "functional"
    mac_address := getStr d.mac_address
    driver := d.driver.getD "generic"
    description := d.description.getD ""
    location := d.location.getD ""
    ip_address := getStr net.ip
    port := jsOrNat net.port 9100
    protocol := jsOrStr net.protocol "socket"
    uri := jsOrStr d.uri
      (jsOrStr net.protocol "socket" ++ "://" ++ getStr net.ip ++ ":" ++
        toString (jsOrNat net.port 9100)) }

/-- One iteration of the MAC-discovery sync loop: validations, MAC→IP
discovery, connectivity tests, then create or update depending on the map
lookup; a throw from either helper is caught and recorded as an item error. -/
def processItem (d : Descriptor) (o : ItemOracle) (store : List Current) :
    ItemOut × List PrEv :=
  if !(truthy d.id) || !(truthy d.name) then
    (ItemOut.errorOut (jsOrStr d.id "unknown") "" "ID e nome sao obrigatorios", [])
  else if !(truthy d.mac_address) then
    (ItemOut.errorOut (getStr d.id) "" "MAC address e obrigatorio", [])
  else if !o.net.found || !(truthy o.net.ip) then
    (ItemOut.errorOut (getStr d.id) (getStr d.name)
      "Nao foi possivel descobrir o IP para o MAC", [])
  else
    let nd := mkPrinterData d o.net
    match store.find? (fun c => c.id = getStr d.id) with
    | none =>
      match createPrinter nd (connOverall o) o.cupsOk o.dbRes with
      | .ok r => r
      | .error (m, t) => (ItemOut.errorOut (getStr d.id) (getStr d.name) m, t)
    | some cur =>
      match updatePrinterIfNeeded nd cur (connOverall o) o.cupsOk o.dbRes with
      | .ok r => r
      | .error (m, t) => (ItemOut.errorOut (getStr d.id) (getStr d.name) m, t)

/-- The whole MAC-discovery `syncPrinters` loop over a batch, collecting the
per-item outcomes and the adapter/store call trace (this variant has no
trailing deletion phase). -/
def runBatch : List (Descriptor × ItemOracle) → List Current → List ItemOut × List PrEv
  | [], _ => ([], [])
  | (d, o) :: rest, store =>
    let r1 := processItem d o store
    let r2 := runBatch rest store
    (r1.1 :: r2.1, r1.2 ++ r2.2)

/-- Whether an outcome is the `unchanged` classification. -/
def ItemOut.isUnchanged : ItemOut → Bool
  | .unchangedOut _ _ => true
  | _ => false

/-- Whether an outcome is the `warnings` classification. -/
def ItemOut.isWarning : ItemOut → Bool
  | .warningOut _ _ _ => true
  | _ => false

/-- The `summary.unchanged` count of the response. -/
def countUnchanged (outs : List ItemOut) : Nat :=
  (outs.filter ItemOut.isUnchanged).length

/-- The `summary.warnings` count of the response. -/
def countWarnings (outs : List ItemOut) : Nat :=
  (outs.filter ItemOut.isWarning).length

end V2

/-- Boolean test that `p` is an initial segment of `l`. -/
def isPfx : List Char → List Char → Bool
  | [], _ => true
  | _ :: _, [] => false
  | p :: ps, c :: cs => p = c && isPfx ps cs

namespace PathM

/-- `path.basename` for the separator-terminated-free paths the watcher
emits: the segment after the last slash. -/
def basename (s : String) : String :=
  ⟨(s.data.reverse.takeWhile (fun c => c ≠ '/')).reverse⟩

/-- `path.dirname`: the part before the last slash ("." when there is none,
"/" at the root). -/
def dirname (s : String) : String :=
  if s.data.contains '/' then
    let d := ((s.data.reverse.dropWhile (fun c => c ≠ '/')).drop 1).reverse
    if d = [] then "/" else ⟨d⟩
  else "."

/-- `path.extname`: from the last dot of the basename to the end; empty when
the basename has no dot or only a leading dot. -/
def extname (s : String) : String :=
  let b := (basename s).data
  if b.contains '.' then
    let afterDot := b.reverse.takeWhile (fun c => c ≠ '.')
    if b.length - afterDot.length - 1 = 0 then "" else ⟨'.' :: afterDot.reverse⟩
  else ""

end PathM

/-- Remove the first occurrence of `pat` from `l` (no recursion past a
match, as `String.prototype.replace` with a string pattern). -/
def removeFirstOcc (pat : List Char) : List Char → List Char
  | [] => []
  | c :: rest =>
    if pat ≠ [] ∧ isPfx pat (c :: rest) then (c :: rest).drop pat.length
    else c :: removeFirstOcc pat rest

/-- `s.replace(pat, '')` with a plain-string pattern: drops the first
occurrence of `pat`; with the empty pattern the string is unchanged. -/
def replaceOnceEmpty (s pat : String) : String :=
  if pat = "" then s else ⟨removeFirstOcc pat.data s.data⟩

namespace Mon

/-- Observable effects of the ingestion pipeline: filesystem deletions and
copies, identifier generation, store writes, and the companion-API
notification (variant with the side channel). -/
inductive Eff
  | fsDelete (p : String)
  | genId (id : String)
  | dbInsert (id fileName : String) (pages : Nat) (path : String)
  | fsCopy (src dst : String)
  | fsUnlink (p : String)
  | dbDelete (id : String)
  | apiNotify (id : String)
deriving Repr, DecidableEq

/-- Oracles for one `processNewFile` run: the `uuid.validate` library
predicate, whether `FilesModel.getById` returned a row with a truthy id, the
`path.relative` value (only its split length is consulted), the PDF page
count (`none` models the caught parse failure), the freshly generated
identifier, and the copy verification outcome. -/
structure Oracle where
  uuidValid : String → Bool
  hasRecord : Bool := false
  relativePath : String := ""
  pages : Option Nat := none
  freshId : String := ""
  copyOk : Bool := true

/-- The shared body of the two `processNewFile` variants: classification,
dedup by identifier, registration, materialization with rollback on a copy
mismatch — parameterised by whether files directly at the watched root are
rejected (`rootCheck`, present only in the `monitor.js` variant), whether
the companion API is notified afterwards, and the display-name sanitizer
applied before the insert (the identity in the `monitor.js` variant). -/
def processNewFileCore (rootCheck : Bool) (notify : Bool) (clean : String → String)
    (basePath filePath : String) (o : Oracle) : List Eff :=
  let ext := PathM.extname filePath
  if lowerStr ext ≠ ".pdf" then [.fsDelete filePath]
  else if rootCheck ∧ PathM.dirname filePath = basePath then [.fsDelete filePath]
  else
    let fileNameSave := PathM.basename filePath
    let fileName := replaceOnceEmpty fileNameSave ext
    if o.uuidValid fileName && o.hasRecord then []
    else
      let genTrace := [Eff.genId o.freshId]
      if (o.relativePath.splitOn "/").length = 0 then genTrace
      else
        match o.pages with
        | none => genTrace
        | some pages =>
          let newFilePath := PathM.dirname filePath ++ "/" ++ (o.freshId ++ ext)
          genTrace ++
            [Eff.dbInsert o.freshId (clean fileNameSave) pages newFilePath,
             Eff.fsCopy filePath newFilePath] ++
            (if o.copyOk then [Eff.fsUnlink filePath] else [Eff.dbDelete o.freshId]) ++
            (if notify then [Eff.apiNotify o.freshId] else [])

/-- The result of `FilesModel.getById` as consulted by the unlink handler. -/
inductive LookupRes
  | found (printed : Bool)
  | nullRes
  | errObj
deriving Repr, DecidableEq

/-- The `watcher.on('unlink')` handler (identical in both monitor variants):
ignore still-existing paths and non-identifier names; keep the record of an
already-printed file; otherwise soft-delete the record. -/
def onUnlink (filePath : String) (fsExists : Bool) (uuidValid : String → Bool)
    (lookup : LookupRes) : List Eff :=
  if fsExists then []
  else
    let fileId := replaceOnceEmpty (PathM.basename filePath) (PathM.extname filePath)
    if !(uuidValid fileId) then []
    else
      match lookup with
      | .found printed => if printed then [] else [.dbDelete fileId]
      | .nullRes => [.dbDelete fileId]
      | .errObj => [.dbDelete fileId]

end Mon

namespace PrintD

/-- Observable steps of the print dispatcher `printFile`. -/
inductive PEv
  | dbDeleteFile (id : String)
  | updatePrinted (fileId assetId : String)
  | printCmd (printerName path : String)
  | respondOk
  | respondBad
  | respondErr
  | scheduleUnlink (path : String)
deriving Repr, DecidableEq

/-- Store writes among the dispatcher's steps. -/
def PEv.isStoreWrite : PEv → Bool
  | .dbDeleteFile _ => true
  | .updatePrinted _ _ => true
  | _ => false

/-- `Files.getById` result: the record's `path`, or null, or an error
sentinel. -/
inductive FileLookup
  | found (path : String)
  | nullF
  | errF (msg : String)
deriving Repr, DecidableEq

/-- `Printers.getById` result: the record's `name`, or null, or an error
sentinel. -/
inductive PrinterLookup
  | foundP (name : String)
  | nullP
  | errP (msg : String)
deriving Repr, DecidableEq

/-- The `printFile` controller: validate both records, re-validate the file
on disk (soft-deleting a stale record), mark the file printed, then run the
`lp` command; an `lp` failure reaches the outer catch with no store
rollback; on success the response is sent and the materialized file's
deletion is scheduled. -/
def printFile (fileId assetId : String) (fl : FileLookup) (pl : PrinterLookup)
    (fsExists updateOk printThrows : Bool) : List PEv :=
  match fl with
  | .nullF => [.respondBad]
  | .errF _ => [.respondBad]
  | .found fpath =>
    match pl with
    | .nullP => [.respondBad]
    | .errP _ => [.respondBad]
    | .foundP pname =>
      if !fsExists then [.dbDeleteFile fileId, .respondBad]
      else
        [PEv.updatePrinted fileId assetId] ++
          (if !updateOk then [PEv.respondBad]
           else
             [PEv.printCmd pname fpath] ++
               (if printThrows then [PEv.respondErr]
                else [PEv.respondOk, PEv.scheduleUnlink fpath]))

end PrintD

namespace Clean

/-- The full ECMAScript `\s` class: TAB, LF, VT, FF, CR, space, NBSP,
OGHAM SPACE MARK (U+1680), the Zs spaces U+2000–U+200A, LINE and PARAGRAPH
SEPARATOR (U+2028, U+2029), NARROW NO-BREAK SPACE (U+202F), MEDIUM
MATHEMATICAL SPACE (U+205F), IDEOGRAPHIC SPACE (U+3000) and ZWNBSP
(U+FEFF). -/
def isWs (c : Char) : Bool :=
  let n := c.toNat
  (9 ≤ n && n ≤ 13) || n = 32 || n = 160 || n = 0x1680 ||
  (0x2000 ≤ n && n ≤ 0x200A) || n = 0x2028 || n = 0x2029 || n = 0x202F ||
  n = 0x205F || n = 0x3000 || n = 0xFEFF

/-- The dash class `[-–—]` of the application-name pattern. -/
def isDash (c : Char) : Bool :=
  c = '-' || c = Char.ofNat 0x2013 || c = Char.ofNat 0x2014

/-- The `[_\s]` class. -/
def isWsUs (c : Char) : Bool :=
  isWs c || c = '_'

/-- ASCII digit. -/
def isDigitC (c : Char) : Bool :=
  48 ≤ c.toNat && c.toNat ≤ 57

/-- Case-insensitive initial-segment test (the `/i` flag). -/
def isPfxCI : List Char → List Char → Bool
  | [], _ => true
  | _ :: _, [] => false
  | p :: ps, c :: cs => lowerChar p = lowerChar c && isPfxCI ps cs

/-- Matcher for `-job_\d+\.pdf$` (case-insensitive) at the current position:
returns the consumed length (necessarily to the end of the string). -/
def jobMatch (l : List Char) : Option Nat :=
  if isPfxCI "-job_".data l then
    let rest := l.drop 5
    let ds := rest.takeWhile isDigitC
    let r := rest.drop ds.length
    if decide (1 ≤ ds.length) && isPfxCI ".pdf".data r && decide (r.length = 4) then
      some l.length
    else none
  else none

/-- Replace the first (leftmost) match of `m` by `repl`; scans positions left
to right as a JavaScript regex `replace` without the `g` flag. -/
def replaceFirstMatch (m : List Char → Option Nat) (repl : List Char) :
    List Char → List Char
  | [] =>
    match m [] with
    | some _ => repl
    | none => []
  | c :: rest =>
    match m (c :: rest) with
    | some n => repl ++ (c :: rest).drop n
    | none => c :: replaceFirstMatch m repl rest

/-- `m` matches at no position of `l` (including the empty final position). -/
def noMatchB (m : List Char → Option Nat) : List Char → Bool
  | [] => (m []).isNone
  | c :: rest => (m (c :: rest)).isNone && noMatchB m rest

/-- The application names of the annotation-stripping pattern, in source
(alternation) order. -/
def appNames : List String :=
  ["Bloco de notas", "Notepad", "Microsoft Word", "Word", "Microsoft Excel",
   "Excel", "PowerPoint", "LibreOffice", "OpenOffice", "Writer", "Calc",
   "Mozilla Firefox", "Firefox", "Google Chrome", "Chrome", "Adobe Reader",
   "Acrobat Reader", "PDF Reader", "Paint", "Photoshop", "Illustrator",
   "TextEdit", "Sublime Text", "VSCode", "Visual Studio", "Outlook",
   "Thunderbird", "Teams", "Zoom", "Skype"]

/-- The leading group `(?:[_\s]*[-–—][-–—]*[_\s]*|[_\s]+-)` of the
application-name pattern. The second alternative demands an ASCII hyphen
right after the `[_\s]+` span, a position where the first alternative has
already failed to find any dash, so it can never fire when the first one
failed; greediness is exact here because the spanned classes are disjoint. -/
def matchA (l : List Char) : Option (Nat × List Char) :=
  let a := l.takeWhile isWsUs
  match l.drop a.length with
  | c :: r2 =>
    if isDash c then
      let d := r2.takeWhile isDash
      let r3 := r2.drop d.length
      let b := r3.takeWhile isWsUs
      some (a.length + 1 + d.length + b.length, r3.drop b.length)
    else none
  | [] => none

/-- First application name (in alternation order) that matches
case-insensitively at the head. -/
def tryNames : List String → List Char → Option (Nat × List Char)
  | [], _ => none
  | n :: rest, l =>
    if isPfxCI n.data l then some (n.data.length, l.drop n.data.length)
    else tryNames rest l

/-- The trailing group `(?:\s*[-–—][_\s]*|[_\s]+)` of the application-name
pattern. -/
def matchC (l : List Char) : Option Nat :=
  let a := l.takeWhile isWs
  match l.drop a.length with
  | c :: r2 =>
    if isDash c then
      some (a.length + 1 + (r2.takeWhile isWsUs).length)
    else
      let u := l.takeWhile isWsUs
      if 1 ≤ u.length then some u.length else none
  | [] =>
    let u := l.takeWhile isWsUs
    if 1 ≤ u.length then some u.length else none

/-- Matcher for the whole application-name annotation pattern at the current
position. -/
def appMatch (l : List Char) : Option Nat :=
  match matchA l with
  | none => none
  | some (na, r1) =>
    match tryNames appNames r1 with
    | none => none
    | some (nb, r2) =>
      match matchC r2 with
      | none => none
      | some nc => some (na + nb + nc)

end Clean

namespace Clean

/-- The character class `[A-Za-zÀ-ÖØ-öø-ÿ0-9\s]` of the dash-segment
pattern under the `/i` flag. Ignore-case canonicalization (non-Unicode
mode) maps each class member through `toUpperCase`, so the member `ÿ`
(U+00FF) canonicalizes to `Ÿ` (U+0178) and the class also matches U+0178;
no other character outside the literal ranges canonicalizes into the class
(non-ASCII characters whose upper case is ASCII are excluded by the
canonicalization rule). -/
def isSegChar (c : Char) : Bool :=
  isWs c || isDigitC c || (65 ≤ c.toNat && c.toNat ≤ 90) ||
  (97 ≤ c.toNat && c.toNat ≤ 122) || (0xC0 ≤ c.toNat && c.toNat ≤ 0xD6) ||
  (0xD8 ≤ c.toNat && c.toNat ≤ 0xF6) || (0xF8 ≤ c.toNat && c.toNat ≤ 0xFF) ||
  c.toNat = 0x178

/-- The lookahead `(?=-job_|\.|$)` of the dash-segment pattern. -/
def segLookahead (l : List Char) : Bool :=
  match l with
  | [] => true
  | c :: _ => isPfxCI "-job_".data l || c = '.'

/-- The leading alternatives `_-_|_-|\s-\s|\s-|-` of the dash-segment
pattern, listed with their consumed lengths in alternation order. -/
def segAlts (l : List Char) : List Nat :=
  (if isPfx "_-_".data l then [3] else []) ++
  (if isPfx "_-".data l then [2] else []) ++
  (match l with
   | a :: b :: c :: _ => if isWs a && b = '-' && isWs c then [3] else []
   | _ => []) ++
  (match l with
   | a :: b :: _ => if isWs a && b = '-' then [2] else []
   | _ => []) ++
  (match l with
   | a :: _ => if a = '-' then [1] else []
   | _ => [])

/-- Attempt one leading alternative of length `k`: a maximal nonempty run of
segment characters must follow and the lookahead must hold where it ends
(shorter runs cannot help since the lookahead characters are outside the
class). -/
def segTryAlt (l : List Char) (k : Nat) : Option Nat :=
  let r := l.drop k
  let sp := r.takeWhile isSegChar
  if decide (1 ≤ sp.length) && segLookahead (r.drop sp.length) then some (k + sp.length)
  else none

/-- First alternative (in order) whose continuation succeeds. -/
def firstAlt (l : List Char) : List Nat → Option Nat
  | [] => none
  | k :: rest =>
    match segTryAlt l k with
    | some n => some n
    | none => firstAlt l rest

/-- Matcher for the dash-segment pattern
`(?:_-_|_-|\s-\s|\s-|-)(?:[A-Za-zÀ-ÖØ-öø-ÿ0-9\s]+)(?=-job_|\.|$)` at the
current position. -/
def segMatch (l : List Char) : Option Nat :=
  firstAlt l (segAlts l)

/-- The mojibake table of `cleanFileName`, in source (insertion) order. -/
def accentCodes : List (String × Char) :=
  [("303_263", 'ó'), ("303_243", 'ã'), ("303_247", 'ç'), ("303_265", 'á'),
   ("303_251", 'é'), ("303_245", 'õ'), ("303_252", 'ê'), ("303_255", 'í'),
   ("303_272", 'ú'), ("303_250", 'è'), ("303_241", 'á'), ("303_261", 'ñ'),
   ("303_266", 'æ'), ("303_244", 'ä'), ("303_274", 'ü')]

/-- One global pass of `new RegExp('_code|_code_|code', 'g')` replacement:
at each position the `_code` alternative is preferred (so the `_code_`
alternative never fires), then `code` alone; scanning resumes after each
match. -/
def accScan (code : List Char) (rep : Char) : List Char → List Char
  | [] => []
  | c :: rest =>
    if code ≠ [] ∧ isPfx ('_' :: code) (c :: rest) then
      rep :: accScan code rep (rest.drop code.length)
    else if h2 : code ≠ [] ∧ isPfx code (c :: rest) then
      rep :: accScan code rep ((c :: rest).drop code.length)
    else
      c :: accScan code rep rest
termination_by l => l.length
decreasing_by
  · simp only [List.length_cons, List.length_drop]
    omega
  · simp only [List.length_cons, List.length_drop]
    have : code.length ≠ 0 := by
      simpa [List.length_eq_zero] using h2.1
    omega
  · simp [Nat.lt_succ_self]

/-- Matcher for the doubled-extension pattern
`\.(txt|doc|docx|xls|xlsx|ppt|pptx|odt|ods|odp|html|htm)\.(pdf)$`. -/
def docExts : List String :=
  ["txt", "doc", "docx", "xls", "xlsx", "ppt", "pptx", "odt", "ods", "odp",
   "html", "htm"]

/-- Try each middle extension (alternation order) after the leading dot;
`.pdf` must close the string. -/
def tryExts : List String → List Char → Option Nat
  | [], _ => none
  | e :: more, rest =>
    if isPfxCI e.data rest then
      let r := rest.drop e.data.length
      if isPfxCI ".pdf".data r && decide (r.length = 4) then
        some (1 + e.data.length + 4)
      else tryExts more rest
    else tryExts more rest

/-- Matcher for the doubled-extension pattern at the current position. -/
def extMatch (l : List Char) : Option Nat :=
  match l with
  | '.' :: rest => tryExts docExts rest
  | _ => none

/-- The doubled-extension replacement `'.$2'`: the matched span (which runs
to the end of the string) is replaced by a dot followed by the captured
`pdf` letters in their original case — the last three characters of the
match. -/
def replaceExtKeep : List Char → List Char
  | [] => []
  | c :: rest =>
    match extMatch (c :: rest) with
    | some n => '.' :: (c :: rest).drop (n - 3)
    | none => c :: replaceExtKeep rest

/-- `replace(/\s+/g, ' ')`: each maximal whitespace run becomes a single
space. -/
def collapseWs : List Char → List Char
  | [] => []
  | c :: rest =>
    if isWs c then ' ' :: collapseWs (rest.dropWhile isWs)
    else c :: collapseWs rest
termination_by l => l.length
decreasing_by
  · simp only [List.length_cons]
    exact Nat.lt_succ_of_le (List.dropWhile_sublist _).length_le
  · simp [Nat.lt_succ_self]

/-- `String.prototype.trim`. -/
def trimJs (l : List Char) : List Char :=
  ((l.dropWhile isWs).reverse.dropWhile isWs).reverse

/-- Matcher for `\.pdf\.pdf$` (case-insensitive) at the current position. -/
def ppMatch (l : List Char) : Option Nat :=
  if isPfxCI ".pdf.pdf".data l && decide (l.length = 8) then some 8 else none

/-- `cleanFileName` from the monitor variant with the companion-API side
channel: the eight rewrite steps in source order (the `try`/`catch` wrapper
returns the input unchanged on an internal failure and is not reachable for
any string input since every step below is total). -/
def cleanList (l : List Char) : List Char :=
  let s1 := replaceFirstMatch jobMatch ".pdf".data l
  let s2 := replaceFirstMatch appMatch [] s1
  let s3 := replaceFirstMatch segMatch [] s2
  let s4 := accentCodes.foldl (fun acc p => accScan p.1.data p.2 acc) s3
  let s5 := s4.map (fun c => if c = '_' then ' ' else c)
  let s6 := replaceExtKeep s5
  let s7 := trimJs (collapseWs s6)
  replaceFirstMatch ppMatch ".pdf".data s7

/-- `cleanFileName` on strings. -/
def cleanFileName (s : String) : String :=
  ⟨cleanList s.data⟩

/-- No two adjacent whitespace characters. -/
def noAdjWs : List Char → Bool
  | [] => true
  | [_] => true
  | a :: b :: r => !(isWs a && isWs b) && noAdjWs (b :: r)

/-- Head (if any) is not whitespace. -/
def headNotWs : List Char → Bool
  | [] => true
  | c :: _ => !(isWs c)

/-- The whitespace-collapse and trim steps leave `l` unchanged: every
whitespace character is a plain space, no two are adjacent, and none sits at
either end. -/
def wsClean (l : List Char) : Bool :=
  l.all (fun c => !(isWs c) || c = ' ') && noAdjWs l && headNotWs l &&
  headNotWs l.reverse

/-- `s` matches none of the rewrite patterns of `cleanFileName`: no
occurrence of the job suffix, application-annotation, dash-segment,
doubled-extension or doubled-pdf patterns, no underscore (which also rules
out every mojibake code, each of which contains an underscore), and no
whitespace that the collapse/trim step would rewrite. -/
def noRewritePatterns (s : String) : Bool :=
  let l := s.data
  noMatchB jobMatch l && noMatchB appMatch l && noMatchB segMatch l &&
  !(l.contains '_') && noMatchB extMatch l && noMatchB ppMatch l && wsClean l

end Clean

/-- `processNewFile` of `monitor.js`: root-level files rejected, raw display
name stored, no companion-API notification. -/
def Mon.processNewFileA (basePath filePath : String) (o : Mon.Oracle) : List Mon.Eff :=
  Mon.processNewFileCore true false (fun s => s) basePath filePath o

/-- `processNewFile` of the companion-API monitor variant: no root-level
rejection, display name sanitized with `cleanFileName`, companion API
notified after materialization. -/
def Mon.processNewFileB (basePath filePath : String) (o : Mon.Oracle) : List Mon.Eff :=
  Mon.processNewFileCore false true Clean.cleanFileName basePath filePath o

namespace Inputs

/-- A valid, reachable socket descriptor whose store insert will return an
error object after a successful CUPS configure. -/
def c1desc : V1.Descriptor :=
  { id := some "p1", name := some "HP-Floor2", ip_address := some "10.0.0.5",
    protocol := some "socket", port := some 9100 }

/-- Oracle for `c1desc`: no existing row, open port, CUPS configure
succeeds, the insert returns a `message` sentinel (the store client catches
its own exceptions, so this is the store's failure mode). -/
def c1oracle : V1.ItemOracle :=
  { existingId := none, portOpen := true, cupsSetupOk := true,
    dbRes := .errObj "db down", ippOk := fun _ => false }

/-- A replayed descriptor: the direct-sync variant consults only the `id`
of the stored row, so a batch whose row already exists with the same values
is an unchanged replay by construction. -/
def c2desc : V1.Descriptor :=
  { id := some "p1", name := some "HP-Floor2", ip_address := some "10.0.0.5",
    protocol := some "socket", port := some 9100 }

/-- Oracle for the replay: the row exists, the printer is reachable, CUPS
and the store succeed. -/
def c2oracle : V1.ItemOracle :=
  { existingId := some "p1", portOpen := true, cupsSetupOk := true,
    dbRes := .ok, ippOk := fun _ => false }

/-- The replayed batch of one descriptor. -/
def c2batch : List (V1.Descriptor × V1.ItemOracle) :=
  [(c2desc, c2oracle)]

/-- The current database rows: exactly the replayed printer. -/
def c2db : List V1.DbPrinter :=
  [{ id := "p1", name := "HP-Floor2" }]

/-- A MAC-variant descriptor for the amended-C2 witness. -/
def w2desc : V2.Descriptor :=
  { id := some "p1", name := some "HP-Floor2", mac_address := some "aa:bb:cc:dd:ee:ff" }

/-- Its oracle: discovery succeeds and the connectivity test passes. -/
def w2oracle : V2.ItemOracle :=
  { net := { found := true, ip := some "10.0.0.5", port := some 9100,
             protocol := some "socket" },
    pingOk := true, portOpen := true, cupsOk := true, dbRes := .ok }

/-- The stored row equal to the constructed printer data in every diffed
field. -/
def w2store : List V2.Current :=
  [{ id := "p1", name := some "HP-Floor2", status := some "functional",
     mac_address := some "aa:bb:cc:dd:ee:ff", driver := some "generic",
     description := some "", location := some "", ip_address := some "10.0.0.5",
     port := some 9100, protocol := some "socket",
     uri := some "socket://10.0.0.5:9100" }]

/-- The MAC-variant replayed batch of one descriptor. -/
def w2batch : List (V2.Descriptor × V2.ItemOracle) :=
  [(w2desc, w2oracle)]

/-- The stored row of the replayed printer. -/
def w2cur : V2.Current :=
  { id := "p1", name := some "HP-Floor2", status := some "functional",
    mac_address := some "aa:bb:cc:dd:ee:ff", driver := some "generic",
    description := some "", location := some "", ip_address := some "10.0.0.5",
    port := some 9100, protocol := some "socket",
    uri := some "socket://10.0.0.5:9100" }

/-- An unreachable but valid descriptor for the C4 witness. -/
def c4desc : V1.Descriptor :=
  { id := some "p1", name := some "HP", ip_address := some "10.0.0.5",
    protocol := some "socket" }

/-- Oracle for `c4desc`: the TCP probe fails, the store write succeeds. -/
def c4oracle : V1.ItemOracle :=
  { existingId := none, portOpen := false, cupsSetupOk := true,
    dbRes := .ok, ippOk := fun _ => false }

/-- Oracle for the C5 witness: the base name is recognised as an issued
identifier and a live record exists for it. -/
def c5oracle : Mon.Oracle :=
  { uuidValid := fun s => s == "0fe9a1b2", hasRecord := true,
    relativePath := "u1", pages := some 3, freshId := "newid", copyOk := true }

end Inputs

/-- The probe loop returns the default URI when every candidate path fails. -/
theorem Cups.discoverLoop_fallback (protocol ip : String) (port : Nat)
    (ok : String → Bool) :
    ∀ ps : List String, (∀ p ∈ ps, ok (if p = "" then "/" else p) = false) →
      Cups.discoverLoop protocol ip port ok ps =
        protocol ++ "://" ++ ip ++ ":" ++ toString port ++ "/ipp/print"
  | [], _ => rfl
  | p :: rest, h => by
    have hp := h p (List.mem_cons_self p rest)
    have ih := Cups.discoverLoop_fallback protocol ip port ok rest
      (fun q hq => h q (List.mem_cons_of_mem p hq))
    simp only [Cups.discoverLoop, hp, Bool.false_eq_true, if_false, ih]

/-- Claim C10: `getDefaultPort` is total in the protocol: 631 for ipp/ipps,
515 for lpd, 80 for http, 443 for https, and 9100 for socket, for every
other string and for a missing protocol; the lookup is case-insensitive; and
a descriptor that omits `port` is processed with one of these defaults. -/
theorem claim_C10_getDefaultPort :
    (∀ s : String, lowerStr s ∉ (["ipp", "ipps", "lpd", "http", "https"] : List String) →
      getDefaultPort (some s) = 9100) ∧
    (∀ s t : String, lowerStr s = lowerStr t →
      getDefaultPort (some s) = getDefaultPort (some t)) ∧
    (∀ p : Option String, getDefaultPort p ∈ ([631, 515, 80, 443, 9100] : List Nat)) ∧
    (∀ d : V1.Descriptor, d.port = none →
      V1.destructuredPort d ∈ ([631, 515, 80, 443, 9100] : List Nat)) ∧
    getDefaultPort (some "ipp") = 631 ∧ getDefaultPort (some "ipps") = 631 ∧
    getDefaultPort (some "IPP") = 631 ∧ getDefaultPort (some "lpd") = 515 ∧
    getDefaultPort (some "http") = 80 ∧ getDefaultPort (some "https") = 443 ∧
    getDefaultPort (some "socket") = 9100 ∧ getDefaultPort (some "Socket") = 9100 ∧
    getDefaultPort none = 9100 := by
  have hmem : ∀ p : Option String, getDefaultPort p ∈ ([631, 515, 80, 443, 9100] : List Nat) := by
    intro p
    rcases p with _ | s
    · simp [getDefaultPort]
    · simp only [getDefaultPort]
      split_ifs <;> simp
  refine ⟨?_, ?_, hmem, ?_, ?_, ?_, ?_, ?_, ?_, ?_, ?_, ?_, ?_⟩
  · intro s h
    simp only [List.mem_cons, List.not_mem_nil, or_false, not_or] at h
    obtain ⟨h1, h2, h3, h4, h5⟩ := h
    simp [getDefaultPort, h1, h2, h3, h4, h5]
  · intro s t h
    simp only [getDefaultPort, h]
  · intro d h
    simp only [V1.destructuredPort, h]
    exact hmem _
  all_goals decide

/-- Claim C10 witness: a concrete unknown protocol and a concrete
port-omitting descriptor take a default from the table. -/
theorem claim_C10_witness :
    getDefaultPort (some "SOCKET") = 9100 ∧
    V1.destructuredPort { id := some "p1", name := some "HP" } ∈
      ([631, 515, 80, 443, 9100] : List Nat) :=
  ⟨claim_C10_getDefaultPort.1 "SOCKET" (by decide),
   claim_C10_getDefaultPort.2.2.2.1 { id := some "p1", name := some "HP" } rfl⟩

/-- Claim C9: `discoverIppPath` always returns a URI; when no candidate
endpoint responds it falls back to `protocol://ip:port/ipp/print`, and the
URI-construction step of `setupPrinter` for IPP/IPPS printers with an ip
address always succeeds, yielding exactly the discovered URI. -/
theorem claim_C9_discover_fallback (protocol ip : String) (port : Nat)
    (suggested : Option String) (ok : String → Bool) (ipO uri path0 : Option String)
    (hfail : ∀ p ∈ Cups.uniquePaths suggested, ok (if p = "" then "/" else p) = false)
    (hproto : lowerStr protocol = "ipp" ∨ lowerStr protocol = "ipps")
    (hip : truthy ipO = true) (huri : truthy uri = false) :
    Cups.discoverIppPath protocol ip port suggested ok =
      protocol ++ "://" ++ ip ++ ":" ++ toString port ++ "/ipp/print" ∧
    Cups.setupPrinterUri protocol ipO uri path0 port ok =
      Except.ok (Cups.discoverIppPath protocol (getStr ipO) port path0 ok) := by
  constructor
  · exact Cups.discoverLoop_fallback protocol ip port ok _ hfail
  · simp [Cups.setupPrinterUri, huri, hproto, hip]

/-- Claim C9 witness: with every endpoint down, the concrete discovery
returns the default URI and `setupPrinter`'s URI construction succeeds. -/
theorem claim_C9_witness :
    Cups.discoverIppPath "ipp" "10.0.0.5" 631 none (fun _ => false) =
      "ipp://10.0.0.5:631/ipp/print" ∧
    Cups.setupPrinterUri "ipp" (some "10.0.0.5") none none 631 (fun _ => false) =
      Except.ok (Cups.discoverIppPath "ipp" "10.0.0.5" 631 none (fun _ => false)) :=
  claim_C9_discover_fallback "ipp" "10.0.0.5" 631 none (fun _ => false)
    (some "10.0.0.5") none none (by decide) (by decide) (by decide) (by decide)

/-- Claim C3: `testIppEndpoint` does not return an object of shape
`(valid, path, error)` — it returns the URI string produced by
`discoverIppPath` (here, with all endpoints answering, the first candidate
path's URI), and the caller's `ippResult.valid` check is therefore always
falsy: the direct-sync loop treats the fully-responsive IPP printer as not
connected (a warning, no CUPS configure call). -/
theorem claim_C3_returns_string_eval :
    Cups.testIppEndpoint "ipp" "10.0.0.5" 631 (fun _ => true) =
      "ipp://10.0.0.5:631/ipp/print" ∧
    Cups.stringValidField
      (Cups.testIppEndpoint "ipp" "10.0.0.5" 631 (fun _ => true)) = false ∧
    V1.processItem
      { id := some "p1", name := some "HP", ip_address := some "10.0.0.5",
        protocol := some "ipp" }
      { existingId := none, portOpen := true, ippOk := fun _ => true }
      { total := 1 } =
      ({ total := 1, created := 1,
         warnings := [⟨"p1", "HP", "Impressora nao esta conectada na porta"⟩] },
       [PrEv.dbInsert "p1"]) := by
  refine ⟨by decide, rfl, by decide⟩

/-- Claim C4: a descriptor with its required fields present whose
connectivity probe fails still has its record created or updated (the store
write event happens and created+updated grows by one), the outcome lands in
the warnings list, and the errors list is untouched; and in the
MAC-discovery variant `_createPrinter` with a negative connectivity test
still configures CUPS, inserts the record, and classifies the printer as a
warning. -/
theorem claim_C4_unreachable_saved :
    (∀ (d : V1.Descriptor) (o : V1.ItemOracle) (st : V1.SyncDetails),
      truthy d.id = true → truthy d.name = true → truthy d.ip_address = true →
      V1.computeConnected d o = false → o.dbRes = DbRes.ok →
      (V1.processItem d o st).1.errors = st.errors ∧
      (V1.processItem d o st).1.warnings = st.warnings ++
        [⟨getStr d.id, getStr d.name, "Impressora nao esta conectada na porta"⟩] ∧
      (V1.processItem d o st).1.created + (V1.processItem d o st).1.updated =
        st.created + st.updated + 1 ∧
      (V1.processItem d o st).2 =
        [if truthy o.existingId then PrEv.dbUpdate (getStr d.id)
         else PrEv.dbInsert (getStr d.id)]) ∧
    (∀ nd : V2.PrinterData,
      V2.createPrinter nd false true DbRes.ok =
        Except.ok (V2.ItemOut.warningOut nd.id nd.name "Impressora criada mas sem conexao",
          [PrEv.cupsSetup nd.name, PrEv.dbInsert nd.id])) := by
  constructor
  · intro d o st hid hname hip hconn hdb
    simp only [V1.processItem, hid, hname, hip, hconn, hdb, Bool.not_true,
      Bool.false_or, Bool.and_false, Bool.false_eq_true, if_false, if_true,
      Bool.or_self, ite_false, ite_true]
    by_cases he : truthy o.existingId <;> simp [he] <;> omega
  · intro nd
    rfl

/-- Claim C4 witness: the concrete unreachable socket printer is created,
warned about, and produces no error. -/
theorem claim_C4_witness :
    (V1.processItem Inputs.c4desc Inputs.c4oracle { total := 1 }).1.errors =
      ({ total := 1 : V1.SyncDetails }).errors ∧
    (V1.processItem Inputs.c4desc Inputs.c4oracle { total := 1 }).1.warnings =
      ({ total := 1 : V1.SyncDetails }).warnings ++
        [⟨getStr Inputs.c4desc.id, getStr Inputs.c4desc.name,
          "Impressora nao esta conectada na porta"⟩] :=
  ⟨(claim_C4_unreachable_saved.1 Inputs.c4desc Inputs.c4oracle { total := 1 }
      (by decide) (by decide) (by decide) (by decide) rfl).1,
   (claim_C4_unreachable_saved.1 Inputs.c4desc Inputs.c4oracle { total := 1 }
      (by decide) (by decide) (by decide) (by decide) rfl).2.1⟩

/-- Claim C5: a discovered `.pdf` file (not at the watched root, for the
variant that rejects root files) whose base name is a valid issued
identifier with a live record is skipped by both `processNewFile` variants:
no identifier is generated, no record is inserted, and no filesystem
operation touches the file. -/
theorem claim_C5_dedup_skip (basePath filePath : String) (o : Mon.Oracle)
    (hext : lowerStr (PathM.extname filePath) = ".pdf")
    (hroot : PathM.dirname filePath ≠ basePath)
    (huuid : o.uuidValid
      (replaceOnceEmpty (PathM.basename filePath) (PathM.extname filePath)) = true)
    (hrec : o.hasRecord = true) :
    Mon.processNewFileA basePath filePath o = [] ∧
    Mon.processNewFileB basePath filePath o = [] := by
  constructor <;>
    simp [Mon.processNewFileA, Mon.processNewFileB, Mon.processNewFileCore,
      hext, hroot, huuid, hrec]

/-- Claim C5 witness: a concrete identifier-named file with a live record is
left untouched by both variants. -/
theorem claim_C5_witness :
    Mon.processNewFileA "/srv/print_server" "/srv/print_server/u1/0fe9a1b2.pdf"
      Inputs.c5oracle = [] ∧
    Mon.processNewFileB "/srv/print_server" "/srv/print_server/u1/0fe9a1b2.pdf"
      Inputs.c5oracle = [] :=
  claim_C5_dedup_skip "/srv/print_server" "/srv/print_server/u1/0fe9a1b2.pdf"
    Inputs.c5oracle (by decide) (by decide) (by decide) rfl

/-- Claim C6: when both records exist, the file is on disk and the
printed-flag update succeeds, the dispatcher's trace starts with the store
update followed by the `lp` invocation, and nothing after the print command
writes to the store — in particular a print failure does not roll the flag
back. -/
theorem claim_C6_printed_before_print (fileId assetId fpath pname : String)
    (printThrows : Bool) :
    ∃ rest,
      PrintD.printFile fileId assetId (.found fpath) (.foundP pname) true true printThrows =
        PrintD.PEv.updatePrinted fileId assetId :: PrintD.PEv.printCmd pname fpath :: rest ∧
      ∀ e ∈ rest, e.isStoreWrite = false := by
  refine ⟨if printThrows then [PrintD.PEv.respondErr]
          else [PrintD.PEv.respondOk, PrintD.PEv.scheduleUnlink fpath], ?_, ?_⟩
  · cases printThrows <;> rfl
  · cases printThrows <;> simp [PrintD.PEv.isStoreWrite]

/-- Claim C8: for an unlink of an identifier-named file that is gone from
disk and whose record was found: a non-printed record is soft-deleted and a
printed record triggers no store call at all. -/
theorem claim_C8_unlink (filePath : String) (uuidValid : String → Bool) (printed : Bool)
    (huuid : uuidValid
      (replaceOnceEmpty (PathM.basename filePath) (PathM.extname filePath)) = true) :
    Mon.onUnlink filePath false uuidValid (.found printed) =
      (if printed then []
       else [Mon.Eff.dbDelete
         (replaceOnceEmpty (PathM.basename filePath) (PathM.extname filePath))]) := by
  cases printed <;> simp [Mon.onUnlink, huuid]

/-- Claim C8 witness: concrete unlink events for a printed and a non-printed
record. -/
theorem claim_C8_witness :
    Mon.onUnlink "/srv/print_server/u1/0fe9a1b2.pdf" false (fun s => s == "0fe9a1b2")
      (.found true) = [] ∧
    Mon.onUnlink "/srv/print_server/u1/0fe9a1b2.pdf" false (fun s => s == "0fe9a1b2")
      (.found false) = [Mon.Eff.dbDelete "0fe9a1b2"] := by
  constructor
  · exact claim_C8_unlink "/srv/print_server/u1/0fe9a1b2.pdf" _ true (by decide)
  · exact (claim_C8_unlink "/srv/print_server/u1/0fe9a1b2.pdf" _ false (by decide)).trans
      (by decide)

/-- Claim C1 (against the direct-sync variant): when `setupPrinter` succeeds
and the store insert returns an error object — the store client's only
failure mode, since it catches its own exceptions — the item error is
recorded but `removePrinter` is never invoked: the trace holds the configure
call and the insert call and no remove, so the CUPS queue stays configured
for a printer whose record was not persisted. (The compensation of the
catch branch, and `_createPrinter` of the MAC-discovery variant, do remove
the queue — the direct variant's returned-error path is the slip.) -/
theorem claim_C1_no_compensation_eval :
    V1.processItem Inputs.c1desc Inputs.c1oracle { total := 1 } =
      ({ total := 1, errors := [⟨"p1", "HP-Floor2", "db down"⟩] },
       [PrEv.cupsSetup "HP-Floor2", PrEv.dbInsert "p1"]) ∧
    PrEv.cupsRemove "HP-Floor2" ∉
      (V1.processItem Inputs.c1desc Inputs.c1oracle { total := 1 }).2 := by
  exact ⟨by decide, by decide⟩

/-- Claim C2 counterexample: a batch replayed unchanged against the
direct-sync variant still issues a CUPS configure call for the reachable
printer, and classifies it as updated (this variant has no unchanged
classification at all) — so it is false that a replayed unchanged sync makes
no adapter configure calls. -/
theorem claim_C2_counterexample :
    ¬ ((V1.syncPrinters Inputs.c2batch Inputs.c2db).2.filter PrEv.isCups = []) ∧
    PrEv.cupsSetup "HP-Floor2" ∈ (V1.syncPrinters Inputs.c2batch Inputs.c2db).2 ∧
    (V1.syncPrinters Inputs.c2batch Inputs.c2db).1.updated = 1 := by
  exact ⟨by decide, by decide, by decide⟩

/-- One replayed item of the MAC-discovery variant: with valid fields,
successful discovery and a stored row equal in every diffed field (including
ip), the item makes no adapter or store call and is classified unchanged
when its connectivity test passes, as a warning otherwise. -/
theorem V2.processItem_replay (d : V2.Descriptor) (o : V2.ItemOracle)
    (store : List V2.Current)
    (hid : truthy d.id = true) (hname : truthy d.name = true)
    (hmac : truthy d.mac_address = true)
    (hfound : o.net.found = true) (hip : truthy o.net.ip = true)
    (cur : V2.Current)
    (hfind : store.find? (fun c => c.id = getStr d.id) = some cur)
    (hchanges : V2.detectChanges (V2.mkPrinterData d o.net) cur = [])
    (hipEq : cur.ip_address = some (V2.mkPrinterData d o.net).ip_address) :
    V2.processItem d o store =
      (if V2.connOverall o then
        V2.ItemOut.unchangedOut (V2.mkPrinterData d o.net).id
          (V2.mkPrinterData d o.net).name
       else
        V2.ItemOut.warningOut (V2.mkPrinterData d o.net).id
          (V2.mkPrinterData d o.net).name "Impressora sem conexao", []) := by
  simp only [V2.processItem, hid, hname, hmac, hfound, hip, Bool.not_true,
    Bool.or_self, Bool.false_or, Bool.or_false, Bool.false_eq_true, if_false]
  rw [hfind]
  simp only [V2.updatePrinterIfNeeded, hchanges, hipEq, List.nil_append, ne_eq,
    not_true_eq_false, if_false]
  cases hc : V2.connOverall o <;> simp [hc]

/-- Claim C2 (amended): in the MAC-discovery variant, a batch replayed
unchanged (every descriptor valid, discovered, and equal to its stored row
in all diffed fields and in ip) makes no adapter configure or remove calls
and no store write at all; every item is classified unchanged or — when its
connectivity test fails — as a warning, and when every test passes the
unchanged count equals the batch size. -/
theorem claim_C2_amended_replay (batch : List (V2.Descriptor × V2.ItemOracle))
    (store : List V2.Current)
    (hvalid : ∀ x ∈ batch, truthy x.1.id = true ∧ truthy x.1.name = true ∧
      truthy x.1.mac_address = true)
    (hnet : ∀ x ∈ batch, x.2.net.found = true ∧ truthy x.2.net.ip = true)
    (hreplay : ∀ x ∈ batch, ∃ cur,
      store.find? (fun c => c.id = getStr x.1.id) = some cur ∧
      V2.detectChanges (V2.mkPrinterData x.1 x.2.net) cur = [] ∧
      cur.ip_address = some (V2.mkPrinterData x.1 x.2.net).ip_address) :
    (V2.runBatch batch store).2 = [] ∧
    V2.countUnchanged (V2.runBatch batch store).1 +
      V2.countWarnings (V2.runBatch batch store).1 = batch.length ∧
    ((∀ x ∈ batch, V2.connOverall x.2 = true) →
      V2.countUnchanged (V2.runBatch batch store).1 = batch.length) := by
  induction batch with
  | nil => simp [V2.runBatch, V2.countUnchanged, V2.countWarnings]
  | cons x rest ih =>
    obtain ⟨d, o⟩ := x
    obtain ⟨hid, hname, hmac⟩ := hvalid _ (List.mem_cons_self _ _)
    obtain ⟨hfound, hip⟩ := hnet _ (List.mem_cons_self _ _)
    obtain ⟨cur, hfind, hchanges, hipEq⟩ := hreplay _ (List.mem_cons_self _ _)
    have ihr := ih (fun y hy => hvalid y (List.mem_cons_of_mem _ hy))
      (fun y hy => hnet y (List.mem_cons_of_mem _ hy))
      (fun y hy => hreplay y (List.mem_cons_of_mem _ hy))
    have hitem := V2.processItem_replay d o store hid hname hmac hfound hip cur
      hfind hchanges hipEq
    simp only [V2.runBatch, hitem]
    refine ⟨by simpa using ihr.1, ?_, ?_⟩
    · have h2 := ihr.2.1
      simp only [V2.countUnchanged, V2.countWarnings] at h2
      cases hc : V2.connOverall o <;>
        simp [hc, V2.countUnchanged, V2.countWarnings, V2.ItemOut.isUnchanged,
          V2.ItemOut.isWarning] <;>
        omega
    · intro hall
      have hcon := hall _ (List.mem_cons_self _ _)
      have hrest := ihr.2.2 (fun y hy => hall y (List.mem_cons_of_mem _ hy))
      simp only [V2.countUnchanged] at hrest ⊢
      simp at hcon
      simp [hcon, V2.ItemOut.isUnchanged, hrest]

/-- Claim C2 witness: the concrete MAC-variant replay of one reachable,
unchanged printer produces no adapter call and one unchanged
classification. -/
theorem claim_C2_witness :
    (V2.runBatch Inputs.w2batch Inputs.w2store).2 = [] ∧
    V2.countUnchanged (V2.runBatch Inputs.w2batch Inputs.w2store).1 =
      Inputs.w2batch.length := by
  have h := claim_C2_amended_replay Inputs.w2batch Inputs.w2store
    (by
      intro x hx
      simp only [Inputs.w2batch, List.mem_singleton] at hx
      subst hx
      exact ⟨by decide, by decide, by decide⟩)
    (by
      intro x hx
      simp only [Inputs.w2batch, List.mem_singleton] at hx
      subst hx
      exact ⟨by decide, by decide⟩)
    (by
      intro x hx
      simp only [Inputs.w2batch, List.mem_singleton] at hx
      subst hx
      exact ⟨Inputs.w2cur, by decide, by decide, by decide⟩)
  refine ⟨h.1, h.2.2 ?_⟩
  intro x hx
  simp only [Inputs.w2batch, List.mem_singleton] at hx
  subst hx
  decide

/-- Characters of a matched initial segment belong to the scanned list. -/
theorem isPfx_mem : ∀ (p l : List Char), isPfx p l = true → ∀ c ∈ p, c ∈ l
  | [], _, _, c, hc => absurd hc (List.not_mem_nil c)
  | _ :: _, [], h, _, _ => by simp [isPfx] at h
  | p :: ps, a :: l, h, c, hc => by
    simp only [isPfx, Bool.and_eq_true, decide_eq_true_eq] at h
    rcases List.mem_cons.mp hc with rfl | hc2
    · exact h.1 ▸ List.mem_cons_self _ _
    · exact List.mem_cons_of_mem _ (isPfx_mem ps l h.2 c hc2)

/-- A pattern with no match anywhere leaves `replaceFirstMatch` as the
identity. -/
theorem Clean.replaceFirstMatch_id (m : List Char → Option Nat) (repl : List Char) :
    ∀ l, Clean.noMatchB m l = true → Clean.replaceFirstMatch m repl l = l
  | [], h => by
    simp only [Clean.noMatchB, Option.isNone_iff_eq_none] at h
    simp [Clean.replaceFirstMatch, h]
  | c :: rest, h => by
    simp only [Clean.noMatchB, Bool.and_eq_true, Option.isNone_iff_eq_none] at h
    simp [Clean.replaceFirstMatch, h.1,
      Clean.replaceFirstMatch_id m repl rest h.2]

/-- Without a doubled extension anywhere, its capture-keeping replacement is
the identity. -/
theorem Clean.replaceExtKeep_id :
    ∀ l, Clean.noMatchB Clean.extMatch l = true → Clean.replaceExtKeep l = l
  | [], _ => rfl
  | c :: rest, h => by
    simp only [Clean.noMatchB, Bool.and_eq_true, Option.isNone_iff_eq_none] at h
    simp [Clean.replaceExtKeep, h.1, Clean.replaceExtKeep_id rest h.2]

/-- A mojibake pass with an underscore in its code cannot touch an
underscore-free string. -/
theorem Clean.accScan_id (code : List Char) (rep : Char) (hcode : '_' ∈ code) :
    ∀ l, '_' ∉ l → Clean.accScan code rep l = l := by
  intro l
  induction l with
  | nil => intro _; simp [Clean.accScan]
  | cons c rest ih =>
    intro hl
    have c1 : ¬(code ≠ [] ∧ isPfx ('_' :: code) (c :: rest) = true) := fun hp =>
      hl (isPfx_mem _ _ hp.2 '_' (List.mem_cons_self _ _))
    have c2 : ¬(code ≠ [] ∧ isPfx code (c :: rest) = true) := fun hp =>
      hl (isPfx_mem _ _ hp.2 '_' hcode)
    rw [Clean.accScan]
    simp only [c1, c2, if_false, dif_neg]
    exact congrArg (c :: ·) (ih fun hm => hl (List.mem_cons_of_mem _ hm))

/-- The whole mojibake fold is the identity on an underscore-free string. -/
theorem Clean.accentFold_id : ∀ (codes : List (String × Char)) (l : List Char),
    (∀ p ∈ codes, '_' ∈ p.1.data) → '_' ∉ l →
    codes.foldl (fun acc p => Clean.accScan p.1.data p.2 acc) l = l
  | [], _, _, _ => rfl
  | p :: rest, l, hc, hl => by
    simp only [List.foldl_cons]
    rw [Clean.accScan_id p.1.data p.2 (hc p (List.mem_cons_self _ _)) l hl]
    exact Clean.accentFold_id rest l (fun q hq => hc q (List.mem_cons_of_mem _ hq)) hl

/-- The underscore-to-space map is the identity on an underscore-free
string. -/
theorem Clean.mapUnderscore_id : ∀ l : List Char, '_' ∉ l →
    l.map (fun c => if c = '_' then ' ' else c) = l
  | [], _ => rfl
  | c :: rest, h => by
    have hc : ¬ c = '_' := fun hh => h (hh ▸ List.mem_cons_self _ _)
    simp only [List.map_cons, hc, if_false, ite_false]
    exact congrArg (c :: ·)
      (Clean.mapUnderscore_id rest fun hm => h (List.mem_cons_of_mem _ hm))

/-- Adjacent-whitespace freedom passes to the tail. -/
theorem Clean.noAdjWs_tail : ∀ (a : Char) (l : List Char),
    Clean.noAdjWs (a :: l) = true → Clean.noAdjWs l = true
  | _, [], _ => rfl
  | _, _ :: _, h => by
    simp only [Clean.noAdjWs, Bool.and_eq_true] at h
    exact h.2

/-- After a whitespace character, adjacent-whitespace freedom forces a
non-whitespace head. -/
theorem Clean.headNotWs_of_adj (a : Char) (l : List Char)
    (h : Clean.noAdjWs (a :: l) = true) (ha : Clean.isWs a = true) :
    Clean.headNotWs l = true := by
  cases l with
  | nil => rfl
  | cons b r =>
    simp only [Clean.noAdjWs, Bool.and_eq_true, Bool.not_eq_true',
      Bool.and_eq_false_iff] at h
    rcases h.1 with h1 | h1
    · rw [ha] at h1
      cases h1
    · simp [Clean.headNotWs, h1]

/-- `dropWhile` of whitespace is the identity when the head is not
whitespace. -/
theorem Clean.dropWhile_headNot (l : List Char) (h : Clean.headNotWs l = true) :
    l.dropWhile Clean.isWs = l := by
  cases l with
  | nil => rfl
  | cons c r =>
    simp only [Clean.headNotWs, Bool.not_eq_true'] at h
    simp [List.dropWhile_cons, h]

/-- Whitespace collapse is the identity when all whitespace is a single
plain space. -/
theorem Clean.collapseWs_id : ∀ l : List Char,
    l.all (fun c => !(Clean.isWs c) || c = ' ') = true → Clean.noAdjWs l = true →
    Clean.collapseWs l = l := by
  intro l
  induction l with
  | nil => intro _ _; simp [Clean.collapseWs]
  | cons c rest ih =>
    intro hall hadj
    simp only [List.all_cons, Bool.and_eq_true] at hall
    by_cases hw : Clean.isWs c = true
    · have hsp : c = ' ' := by
        rcases Bool.or_eq_true_iff.mp hall.1 with h1 | h1
        · rw [Bool.not_eq_true'] at h1
          rw [hw] at h1
          cases h1
        · exact of_decide_eq_true h1
      have hhd : Clean.headNotWs rest = true := Clean.headNotWs_of_adj c rest hadj hw
      rw [Clean.collapseWs]
      simp only [hw, if_true, Clean.dropWhile_headNot rest hhd]
      rw [ih hall.2 (Clean.noAdjWs_tail c rest hadj), hsp]
    · rw [Clean.collapseWs]
      simp only [hw, if_false, Bool.false_eq_true]
      exact congrArg (c :: ·) (ih hall.2 (Clean.noAdjWs_tail c rest hadj))

/-- `trim` is the identity when neither end is whitespace. -/
theorem Clean.trimJs_id (l : List Char) (h1 : Clean.headNotWs l = true)
    (h2 : Clean.headNotWs l.reverse = true) : Clean.trimJs l = l := by
  unfold Clean.trimJs
  rw [Clean.dropWhile_headNot l h1, Clean.dropWhile_headNot l.reverse h2,
    List.reverse_reverse]

/-- `cleanFileName` is the identity on strings matching none of its rewrite
patterns. -/
theorem Clean.clean_id (s : String) (h : Clean.noRewritePatterns s = true) :
    Clean.cleanFileName s = s := by
  simp only [Clean.noRewritePatterns, Clean.wsClean, Bool.and_eq_true] at h
  obtain ⟨⟨⟨⟨⟨⟨hjob, happ⟩, hseg⟩, hus⟩, hext⟩, hpp⟩, ⟨⟨⟨hsp, hadj⟩, hhd⟩, hrev⟩⟩ := h
  have husm : '_' ∉ s.data := by simpa using hus
  have hlist : Clean.cleanList s.data = s.data := by
    rw [Clean.cleanList]
    rw [Clean.replaceFirstMatch_id _ _ _ hjob, Clean.replaceFirstMatch_id _ _ _ happ,
      Clean.replaceFirstMatch_id _ _ _ hseg,
      Clean.accentFold_id _ _ (by decide) husm,
      Clean.mapUnderscore_id _ husm,
      Clean.replaceExtKeep_id _ hext,
      Clean.collapseWs_id _ hsp hadj,
      Clean.trimJs_id _ hhd hrev,
      Clean.replaceFirstMatch_id _ _ _ hpp]
  show String.mk (Clean.cleanList s.data) = s
  rw [hlist]

/-- Claim C7: `cleanFileName` is total (a plain Lean function of the input
string — the source's catch-all is unreachable), and on any string matching
none of its rewrite patterns, including the empty string, it returns the
input unchanged. -/
theorem claim_C7_sanitize_id (s : String) (h : Clean.noRewritePatterns s = true) :
    Clean.cleanFileName s = s ∧ Clean.cleanFileName "" = "" :=
  ⟨Clean.clean_id s h, Clean.clean_id "" (by decide)⟩

/-- Claim C7 witness: a concrete pattern-free name is returned unchanged. -/
theorem claim_C7_witness :
    Clean.noRewritePatterns "relatorio final.pdf" = true ∧
    Clean.cleanFileName "relatorio final.pdf" = "relatorio final.pdf" :=
  ⟨by decide, (claim_C7_sanitize_id "relatorio final.pdf" (by decide)).1⟩
